import Mathlib

/-!
Verification development for the GitHub branch-deleter userscript
(`src/github-branch-deleter.user.js`).

The repository ships two revisions of the script in one file:

* revision 0.2.1 (the current script, "immediate flow"): clicking a row's
  trash button deletes the branch at once; the deletion loop keeps three
  counters `deletedCount`, `errorCount`, `skippedCount`;
* revision 1.1 (the earlier script, "confirm-dialog flow"): clicking the
  trash button opens a dialog, a confirmation button is looked up through
  `findConfirmButton` over an ordered selector list and clicked; the loop
  keeps `deletedCount` and `errorCount` and silently `continue`s over
  detached rows.

Both are embedded below.  The DOM is modelled through the data the script
actually reads from it: for each captured delete button, whether its row is
still attached to the document when its turn arrives and whether clicking it
raises; for the dialog flow additionally a `querySelector` snapshot used by
the confirmation lookup.  The observable actions of a run (alerts, the
confirmation prompt, clicks, sleeps, the reload) are recorded in an event
trace.
-/

namespace GBD

/-- Static configuration of revision 0.2.1 (`config`, script lines 180-188). -/
structure Config where
  deleteDelay : Nat
  branchRowSelector : String
  deleteButtonSelector : String

/-- The literal configuration object of revision 0.2.1. -/
def config : Config :=
  { deleteDelay := 200
    branchRowSelector := "tbody[class*=\"TableBody\"] tr[class*=\"TableRow\"]"
    deleteButtonSelector := "button:has(svg.octicon-trash)" }

/-- Environment of one captured delete button in revision 0.2.1: what the live
DOM answers when the loop reaches it.  `attached` is the value of
`document.body.contains(row)` at that moment; `clickThrows` says whether
`btn.click()` raises an exception. -/
structure RowEnv where
  attached : Bool
  clickThrows : Bool
deriving DecidableEq, Repr

/-- The three outcome counters of revision 0.2.1 (`deletedCount`,
`errorCount`, `skippedCount`, lines 313-315). -/
structure Tally where
  deletedCount : Nat
  errorCount : Nat
  skippedCount : Nat
deriving DecidableEq, Repr

/-- Componentwise addition of tallies. -/
def tallyAdd (a b : Tally) : Tally :=
  { deletedCount := a.deletedCount + b.deletedCount
    errorCount := a.errorCount + b.errorCount
    skippedCount := a.skippedCount + b.skippedCount }

/-- Sum of the three counters. -/
def tallySum (t : Tally) : Nat :=
  t.deletedCount + t.errorCount + t.skippedCount

/-- Observable actions of a revision 0.2.1 run, in order of occurrence. -/
inductive Event where
  | alertNoBranches : Event
  | confirmPrompt : Nat → Event
  | trigger : Nat → Event
  | settle : Nat → Event
  | alertSummary : Nat → Nat → Nat → Event
  | reload : Event
deriving DecidableEq, Repr

/-- One iteration of the revision 0.2.1 deletion loop (lines 318-345), at
index `i` of a job of `n` buttons.  A detached row is skipped with no click;
otherwise the button is clicked: on success `deletedCount` grows and, when
`i < n - 1`, the settle delay `d` elapses; a raised exception is caught and
counted in `errorCount`. -/
def rowStep (d n i : Nat) (r : RowEnv) : Tally × List Event :=
  if r.attached = false then
    (⟨0, 0, 1⟩, [])
  else if r.clickThrows = true then
    (⟨0, 1, 0⟩, [Event.trigger i])
  else
    (⟨1, 0, 0⟩, Event.trigger i :: if i < n - 1 then [Event.settle d] else [])

/-- The revision 0.2.1 deletion loop over the remaining buttons, starting at
index `i` of a job of `n` buttons. -/
def runRows (d n : Nat) : Nat → List RowEnv → Tally × List Event
  | _, [] => (⟨0, 0, 0⟩, [])
  | i, r :: rest =>
      let s := rowStep d n i r
      let t := runRows d n (i + 1) rest
      (tallyAdd s.1 t.1, s.2 ++ t.2)

/-- The revision 0.2.1 click handler `handleDeleteAllClick` (lines 288-353).
`branchRows` lists the rows matched by the row selector; `none` stands for a
row with no delete button (filtered out, line 296).  `userConfirms` is the
user's answer to the confirmation prompt.  Returns the final counters and
the event trace. -/
def handleDeleteAllClick (branchRows : List (Option RowEnv))
    (userConfirms : Bool) : Tally × List Event :=
  let deleteButtons := branchRows.filterMap id
  if deleteButtons.length = 0 then
    (⟨0, 0, 0⟩, [Event.alertNoBranches])
  else if userConfirms = false then
    (⟨0, 0, 0⟩, [Event.confirmPrompt deleteButtons.length])
  else
    let r := runRows config.deleteDelay deleteButtons.length 0 deleteButtons
    (r.1,
      Event.confirmPrompt deleteButtons.length ::
        r.2 ++
          [Event.alertSummary r.1.deletedCount r.1.errorCount r.1.skippedCount,
            Event.reload])

/-- First confirmation-button selector of revision 1.1 (line 29). -/
def confirmSelector1 : String :=
  "dialog[aria-labelledby=\"confirm-delete-dialog-header\"] button[type=\"submit\"].btn-danger"

/-- Second confirmation-button selector of revision 1.1 (line 30). -/
def confirmSelector2 : String :=
  "dialog form button[type=\"submit\"][class*=\"danger\"]"

/-- Third confirmation-button selector of revision 1.1 (line 31). -/
def confirmSelector3 : String :=
  "dialog button[data-variant=\"danger\"]"

/-- The ordered confirmation-button selector list of revision 1.1
(`config.confirmButtonSelectors`, lines 28-32). -/
def confirmButtonSelectors : List String :=
  [confirmSelector1, confirmSelector2, confirmSelector3]

/-- The close-button selector of revision 1.1 (line 123). -/
def closeButtonSelector : String :=
  "dialog button[aria-label=\"Close\"], dialog button[data-close-dialog-id]"

/-- Helper for `findConfirmButton`: the `for` loop over the selector list;
returns on the first selector for which `document.querySelector` yields an
element. -/
def findFirst (q : String → Option Nat) : List String → Option Nat
  | [] => none
  | s :: rest =>
      match q s with
      | some b => some b
      | none => findFirst q rest

/-- Revision 1.1 `findConfirmButton` (lines 46-52): tries the selectors of
`confirmButtonSelectors` in order against the document, modelled by the
query function `q`, and returns the first hit, or `none`.  It only reads the
document, so it is a pure function of `q`. -/
def findConfirmButton (q : String → Option Nat) : Option Nat :=
  findFirst q confirmButtonSelectors

/-- Environment of one captured delete button in revision 1.1.  `attached`
and `clickThrows` are as in `RowEnv`; `q` is the `document.querySelector`
snapshot in effect once this row's dialog has had its render delay, used for
both the confirmation lookup and the close-button lookup. -/
structure RowEnvV1 where
  attached : Bool
  clickThrows : Bool
  q : String → Option Nat

/-- Observable actions of a revision 1.1 run. -/
inductive EventV1 where
  | trigger : EventV1
  | dialogSleep : Nat → EventV1
  | clickConfirm : Nat → EventV1
  | settle : Nat → EventV1
  | clickClose : Nat → EventV1
deriving DecidableEq, Repr

/-- One iteration of the revision 1.1 deletion loop (lines 98-130).
A detached row is passed over with `continue` and, in this revision, no
counter is incremented.  Otherwise the trash button is clicked (a raised
exception is caught and counted in `errorCount`), the script sleeps 500 ms
for the dialog, and `findConfirmButton` is consulted: a hit is clicked and
counted in `deletedCount`, followed by the 1500 ms settle delay (this
revision also sleeps after the last row); a miss is counted in `errorCount`
and a close button, when present, is clicked to dismiss the dialog. -/
def rowStepV1 (r : RowEnvV1) : Tally × List EventV1 :=
  if r.attached = false then
    (⟨0, 0, 0⟩, [])
  else if r.clickThrows = true then
    (⟨0, 1, 0⟩, [EventV1.trigger])
  else
    match findConfirmButton r.q with
    | some b =>
        (⟨1, 0, 0⟩,
          [EventV1.trigger, EventV1.dialogSleep 500, EventV1.clickConfirm b,
            EventV1.settle 1500])
    | none =>
        (⟨0, 1, 0⟩,
          [EventV1.trigger, EventV1.dialogSleep 500] ++
            match r.q closeButtonSelector with
            | some c => [EventV1.clickClose c]
            | none => [])

/-- The revision 1.1 deletion loop over the captured buttons. -/
def runRowsV1 : List RowEnvV1 → Tally × List EventV1
  | [] => (⟨0, 0, 0⟩, [])
  | r :: rest =>
      let s := rowStepV1 r
      let t := runRowsV1 rest
      (tallyAdd s.1 t.1, s.2 ++ t.2)

/-- The document state read and written by the revision 0.2.1 injector
`injectDeleteAllButton`: the trimmed text contents of the page's `h1`
elements (the script only ever inspects `h1.textContent.trim()`) and the
number of elements carrying the reserved id `batch-delete-branches-btn`. -/
structure Doc where
  h1Texts : List String
  controlCount : Nat
deriving DecidableEq, Repr

/-- Revision 0.2.1 `injectDeleteAllButton` (lines 244-283): find the anchor
as the parent of the first `h1` whose trimmed text is `Branches`; bail out
when there is none; bail out when an element with the reserved id already
exists; otherwise create the control and append it under the anchor. -/
def injectDeleteAllButton (doc : Doc) : Doc :=
  match doc.h1Texts.find? (fun t => t = "Branches") with
  | none => doc
  | some _ =>
      if doc.controlCount ≠ 0 then doc
      else { doc with controlCount := doc.controlCount + 1 }

/-- Number of `settle` events in a trace. -/
def settleCount : List Event → Nat
  | [] => 0
  | Event.settle _ :: es => settleCount es + 1
  | _ :: es => settleCount es

/-- Total milliseconds of `settle` events in a trace. -/
def settleTime : List Event → Nat
  | [] => 0
  | Event.settle d :: es => d + settleTime es
  | _ :: es => settleTime es

/-- Number of rows, counted from index `i` of a job of `n` buttons, that the
revision 0.2.1 loop successfully deletes at an index other than the last:
attached, click does not raise, and `i < n - 1`. -/
def deletedNonLastCount (n : Nat) : Nat → List RowEnv → Nat
  | _, [] => 0
  | i, r :: rest =>
      (if i < n - 1 ∧ r.attached = true ∧ r.clickThrows = false then 1 else 0) +
        deletedNonLastCount n (i + 1) rest

section Lemmas

/-- Each iteration of the revision 0.2.1 loop contributes exactly one to the
sum of the three counters. -/
theorem tallySum_rowStep (d n i : Nat) (r : RowEnv) :
    tallySum (rowStep d n i r).1 = 1 := by
  unfold rowStep
  rcases hA : r.attached with _ | _ <;> rcases hT : r.clickThrows with _ | _ <;>
    simp [hA, hT, tallySum]

theorem tallySum_tallyAdd (a b : Tally) :
    tallySum (tallyAdd a b) = tallySum a + tallySum b := by
  simp [tallySum, tallyAdd]; omega

/-- The sum of the three counters after the loop equals the number of rows
processed. -/
theorem tallySum_runRows (d n : Nat) :
    ∀ (l : List RowEnv) (i : Nat), tallySum (runRows d n i l).1 = l.length := by
  intro l
  induction l with
  | nil => intro i; simp [runRows, tallySum]
  | cons r rest ih =>
      intro i
      simp only [runRows, List.length_cons]
      rw [tallySum_tallyAdd, tallySum_rowStep, ih]
      omega

/-- Full characterisation of the loop's counters: `deletedCount` counts the
attached rows whose click succeeds, `errorCount` the attached rows whose
click raises, `skippedCount` the detached rows. -/
theorem runRows_tally (d n : Nat) :
    ∀ (l : List RowEnv) (i : Nat),
      (runRows d n i l).1 =
        ⟨l.countP (fun r => r.attached && !r.clickThrows),
          l.countP (fun r => r.attached && r.clickThrows),
          l.countP (fun r => !r.attached)⟩ := by
  intro l
  induction l with
  | nil => intro i; simp [runRows]
  | cons r rest ih =>
      intro i
      simp only [runRows, List.countP_cons]
      rw [ih]
      unfold rowStep
      rcases hA : r.attached with _ | _ <;> rcases hT : r.clickThrows with _ | _ <;>
        simp [hA, hT, tallyAdd, Tally.mk.injEq] <;> omega

/-- No trigger event with an index below the loop's starting index occurs. -/
theorem trigger_lt_not_mem (d n : Nat) :
    ∀ (l : List RowEnv) (i j : Nat), j < i →
      Event.trigger j ∉ (runRows d n i l).2 := by
  intro l
  induction l with
  | nil => intro i j _; simp [runRows]
  | cons r rest ih =>
      intro i j hj
      simp only [runRows, List.mem_append]
      push_neg
      refine ⟨?_, ih (i + 1) j (by omega)⟩
      unfold rowStep
      rcases hA : r.attached with _ | _
      · simp [hA]
      · rcases hT : r.clickThrows with _ | _
        · by_cases hin : i < n - 1 <;> simp [hA, hT, hin] <;> omega
        · simp [hA, hT]
          omega

/-- A row that is detached at its turn is never clicked: no trigger event
carries its index. -/
theorem detached_not_triggered (d n : Nat) :
    ∀ (l : List RowEnv) (i k : Nat) (hk : k < l.length),
      (l.get ⟨k, hk⟩).attached = false →
      Event.trigger (i + k) ∉ (runRows d n i l).2 := by
  intro l
  induction l with
  | nil => intro i k hk; simp at hk
  | cons r rest ih =>
      intro i k hk hdet
      simp only [runRows, List.mem_append]
      push_neg
      match k with
      | 0 =>
          simp only [List.get] at hdet
          constructor
          · unfold rowStep
            simp [hdet]
          · exact trigger_lt_not_mem d n rest (i + 1) (i + 0) (by omega)
      | Nat.succ k0 =>
          simp only [List.get] at hdet
          constructor
          · unfold rowStep
            rcases hA : r.attached with _ | _
            · simp [hA]
            · rcases hT : r.clickThrows with _ | _
              · by_cases hin : i < n - 1 <;> simp [hA, hT, hin]
              · simp [hA, hT]
          · have hk0 : k0 < rest.length := by
              simp only [List.length_cons] at hk
              omega
            have hmem := ih (i + 1) k0 hk0 hdet
            have heq : i + Nat.succ k0 = i + 1 + k0 := by omega
            rw [heq]
            exact hmem

theorem settleCount_append (a b : List Event) :
    settleCount (a ++ b) = settleCount a + settleCount b := by
  induction a with
  | nil => simp [settleCount]
  | cons e rest ih =>
      cases e <;> simp [settleCount, ih] <;> omega

theorem settleTime_append (a b : List Event) :
    settleTime (a ++ b) = settleTime a + settleTime b := by
  induction a with
  | nil => simp [settleTime]
  | cons e rest ih =>
      cases e <;> simp [settleTime, ih] <;> omega

/-- The revision 0.2.1 loop emits one settle event exactly for each row it
successfully deletes at an index other than the last. -/
theorem settleCount_runRows (d n : Nat) :
    ∀ (l : List RowEnv) (i : Nat),
      settleCount (runRows d n i l).2 = deletedNonLastCount n i l := by
  intro l
  induction l with
  | nil => intro i; simp [runRows, settleCount, deletedNonLastCount]
  | cons r rest ih =>
      intro i
      simp only [runRows, deletedNonLastCount]
      rw [settleCount_append, ih]
      unfold rowStep
      rcases hA : r.attached with _ | _
      · simp [hA, settleCount]
      · rcases hT : r.clickThrows with _ | _
        · by_cases hin : i < n - 1 <;> simp [hA, hT, hin, settleCount]
        · simp [hA, hT, settleCount]

/-- Every settle event of the revision 0.2.1 loop lasts `d` milliseconds, so
total settle time is the settle count times `d`. -/
theorem settleTime_runRows (d n : Nat) :
    ∀ (l : List RowEnv) (i : Nat),
      settleTime (runRows d n i l).2 = deletedNonLastCount n i l * d := by
  intro l
  induction l with
  | nil => intro i; simp [runRows, settleTime, deletedNonLastCount]
  | cons r rest ih =>
      intro i
      simp only [runRows, deletedNonLastCount]
      rw [settleTime_append, ih]
      unfold rowStep
      rcases hA : r.attached with _ | _
      · simp [hA, settleTime]
      · rcases hT : r.clickThrows with _ | _
        · by_cases hin : i < n - 1 <;> simp [hA, hT, hin, settleTime] <;> ring
        · simp [hA, hT, settleTime]

theorem settleCount_cons_confirmPrompt (n : Nat) (es : List Event) :
    settleCount (Event.confirmPrompt n :: es) = settleCount es := rfl

theorem settleTime_cons_confirmPrompt (n : Nat) (es : List Event) :
    settleTime (Event.confirmPrompt n :: es) = settleTime es := rfl

theorem tallyAdd_zero_left (t : Tally) : tallyAdd ⟨0, 0, 0⟩ t = t := by
  simp [tallyAdd]

theorem tallyAdd_assoc (a b c : Tally) :
    tallyAdd (tallyAdd a b) c = tallyAdd a (tallyAdd b c) := by
  simp [tallyAdd, Tally.mk.injEq]
  omega

/-- The revision 1.1 loop decomposes over list append: counters add up and
traces concatenate. -/
theorem runRowsV1_append (l1 l2 : List RowEnvV1) :
    runRowsV1 (l1 ++ l2) =
      (tallyAdd (runRowsV1 l1).1 (runRowsV1 l2).1,
        (runRowsV1 l1).2 ++ (runRowsV1 l2).2) := by
  induction l1 with
  | nil => simp [runRowsV1, tallyAdd_zero_left]
  | cons r rest ih =>
      simp only [List.cons_append, runRowsV1, List.append_eq]
      rw [ih, tallyAdd_assoc, List.append_assoc]

/-- The injector is a no-op whenever an element with the reserved id already
exists, whether or not the anchor is present. -/
theorem inject_noop_of_control (d : Doc) (h : d.controlCount ≠ 0) :
    injectDeleteAllButton d = d := by
  unfold injectDeleteAllButton
  cases hf : d.h1Texts.find? (fun t => t = "Branches") with
  | none => rfl
  | some _ => simp [h]

/-- Iterating the injector from a document that already holds the control
changes nothing. -/
theorem inject_iterate_stable (k : Nat) :
    ∀ (d : Doc), d.controlCount ≠ 0 → injectDeleteAllButton^[k] d = d := by
  induction k with
  | zero => intro d _; rfl
  | succ k0 ih =>
      intro d h
      rw [Function.iterate_succ_apply, inject_noop_of_control d h, ih d h]

/-- With the anchor present and no control yet, the injector appends exactly
one control and touches nothing else. -/
theorem inject_creates (d : Doc)
    (ha : (d.h1Texts.find? (fun t => t = "Branches")).isSome = true)
    (h0 : d.controlCount = 0) :
    injectDeleteAllButton d = { d with controlCount := 1 } := by
  unfold injectDeleteAllButton
  cases hf : d.h1Texts.find? (fun t => t = "Branches") with
  | none => rw [hf] at ha; simp at ha
  | some _ => simp [h0]

/-- When at least one deletable row exists and the user confirms, the click
handler's counters are those of the deletion loop over the captured
buttons. -/
theorem handle_fst (branchRows : List (Option RowEnv))
    (h : (branchRows.filterMap id).length ≠ 0) :
    (handleDeleteAllClick branchRows true).1 =
      (runRows config.deleteDelay (branchRows.filterMap id).length 0
        (branchRows.filterMap id)).1 := by
  simp [handleDeleteAllClick, h]

/-- When at least one deletable row exists and the user confirms, the click
handler's trace is the confirmation prompt, then the loop's trace, then the
summary alert and the reload. -/
theorem handle_snd (branchRows : List (Option RowEnv))
    (h : (branchRows.filterMap id).length ≠ 0) :
    (handleDeleteAllClick branchRows true).2 =
      Event.confirmPrompt (branchRows.filterMap id).length ::
        (runRows config.deleteDelay (branchRows.filterMap id).length 0
          (branchRows.filterMap id)).2 ++
          [Event.alertSummary (handleDeleteAllClick branchRows true).1.deletedCount
              (handleDeleteAllClick branchRows true).1.errorCount
              (handleDeleteAllClick branchRows true).1.skippedCount,
            Event.reload] := by
  simp [handleDeleteAllClick, h]

end Lemmas

/-- A row that is attached at its turn and whose click succeeds. -/
def rowOk : RowEnv := ⟨true, false⟩

/-- A row that is detached from the document at its turn. -/
def rowDetached : RowEnv := ⟨false, false⟩

/-- A row that is attached but whose click raises an exception. -/
def rowThrows : RowEnv := ⟨true, true⟩

/-- C1: each iteration of the revision 0.2.1 deletion loop increments
exactly one of `deletedCount`, `errorCount`, `skippedCount` by one, and for
a job of `n ≥ 1` deletable rows the completed run has
`deletedCount + errorCount + skippedCount = n`. -/
theorem claim1_each_row_counted_once (branchRows : List (Option RowEnv))
    (d n i : Nat) (r : RowEnv) (rest : List RowEnv)
    (h : 1 ≤ (branchRows.filterMap id).length) :
    tallySum (handleDeleteAllClick branchRows true).1 =
        (branchRows.filterMap id).length ∧
    tallySum (runRows d n i (r :: rest)).1 =
      tallySum (runRows d n (i + 1) rest).1 + 1 := by
  constructor
  · rw [handle_fst branchRows (by omega), tallySum_runRows]
  · simp only [runRows]
    rw [tallySum_tallyAdd, tallySum_rowStep]
    omega

theorem claim1_each_row_counted_once_witness :
    tallySum (handleDeleteAllClick [some rowOk, none, some rowThrows] true).1 =
        (([some rowOk, none, some rowThrows] : List (Option RowEnv)).filterMap
          id).length ∧
    tallySum (runRows 200 2 0 (rowOk :: [rowDetached])).1 =
      tallySum (runRows 200 2 (0 + 1) [rowDetached]).1 + 1 :=
  claim1_each_row_counted_once [some rowOk, none, some rowThrows] 200 2 0 rowOk
    [rowDetached] (by decide)

/-- C2: a captured row that is detached from the document when its turn
arrives is never clicked (no trigger event carries its index) and is
accounted in `skippedCount`: the final counters classify every detached row
as skipped and only attached rows as deleted or errored. -/
theorem claim2_detached_row_skipped (branchRows : List (Option RowEnv))
    (k : Nat) (hk : k < (branchRows.filterMap id).length)
    (hdet : ((branchRows.filterMap id).get ⟨k, hk⟩).attached = false) :
    Event.trigger k ∉ (handleDeleteAllClick branchRows true).2 ∧
    (handleDeleteAllClick branchRows true).1.skippedCount =
      (branchRows.filterMap id).countP (fun r => !r.attached) ∧
    (handleDeleteAllClick branchRows true).1.deletedCount =
      (branchRows.filterMap id).countP (fun r => r.attached && !r.clickThrows) ∧
    (handleDeleteAllClick branchRows true).1.errorCount =
      (branchRows.filterMap id).countP (fun r => r.attached && r.clickThrows) := by
  have hne : (branchRows.filterMap id).length ≠ 0 := by omega
  have hmem := detached_not_triggered config.deleteDelay
    (branchRows.filterMap id).length (branchRows.filterMap id) 0 k hk hdet
  rw [Nat.zero_add] at hmem
  have htally := runRows_tally config.deleteDelay
    (branchRows.filterMap id).length (branchRows.filterMap id) 0
  refine ⟨?_, ?_, ?_, ?_⟩
  · rw [handle_snd branchRows hne]
    intro hmm
    simp at hmm
    exact hmem hmm
  · rw [handle_fst branchRows hne, htally]
  · rw [handle_fst branchRows hne, htally]
  · rw [handle_fst branchRows hne, htally]

theorem claim2_detached_row_skipped_witness :
    Event.trigger 1 ∉
        (handleDeleteAllClick [some rowOk, some rowDetached, some rowOk] true).2 ∧
    (handleDeleteAllClick [some rowOk, some rowDetached, some rowOk] true).1.skippedCount =
      (([some rowOk, some rowDetached, some rowOk] : List (Option RowEnv)).filterMap
          id).countP (fun r => !r.attached) ∧
    (handleDeleteAllClick [some rowOk, some rowDetached, some rowOk] true).1.deletedCount =
      (([some rowOk, some rowDetached, some rowOk] : List (Option RowEnv)).filterMap
          id).countP (fun r => r.attached && !r.clickThrows) ∧
    (handleDeleteAllClick [some rowOk, some rowDetached, some rowOk] true).1.errorCount =
      (([some rowOk, some rowDetached, some rowOk] : List (Option RowEnv)).filterMap
          id).countP (fun r => r.attached && r.clickThrows) :=
  claim2_detached_row_skipped [some rowOk, some rowDetached, some rowOk] 1
    (by decide) (by decide)

/-- C3: an exception raised while clicking a row's trigger is caught at the
row boundary and counted as exactly one `errorCount` increment; every row
before and after the failing one contributes its own outcome unchanged, and
all rows of the job remain accounted for, so no row's failure aborts the
run. -/
theorem claim3_row_failure_contained (d n i : Nat)
    (pre post : List RowEnv) (r : RowEnv)
    (h1 : r.attached = true) (h2 : r.clickThrows = true) :
    (runRows d n i (pre ++ r :: post)).1 =
      tallyAdd (runRows d n i pre).1
        (tallyAdd ⟨0, 1, 0⟩ (runRows d n i post).1) ∧
    tallySum (runRows d n i (pre ++ r :: post)).1 =
      pre.length + 1 + post.length := by
  constructor
  · rw [runRows_tally, runRows_tally, runRows_tally]
    simp [List.countP_append, List.countP_cons, h1, h2, tallyAdd,
      Tally.mk.injEq]
    omega
  · rw [tallySum_runRows]
    simp
    omega

/-- C4: the control injector is idempotent: with the anchor present and no
control yet, iterating the injector `k ≥ 1` times leaves exactly one element
with the reserved id in the document, and on any document that already holds
such an element a call is a no-op. -/
theorem claim4_injector_idempotent (d d2 : Doc) (k : Nat)
    (ha : (d.h1Texts.find? (fun t => t = "Branches")).isSome = true)
    (h0 : d.controlCount = 0) (hk : 1 ≤ k) (h2 : d2.controlCount ≠ 0) :
    (injectDeleteAllButton^[k] d).controlCount = 1 ∧
    injectDeleteAllButton d2 = d2 := by
  refine ⟨?_, inject_noop_of_control d2 h2⟩
  obtain ⟨k0, rfl⟩ : ∃ k0, k = k0 + 1 := ⟨k - 1, by omega⟩
  rw [Function.iterate_succ_apply, inject_creates d ha h0,
    inject_iterate_stable k0 _ (by simp)]

theorem claim4_injector_idempotent_witness :
    (injectDeleteAllButton^[3] ⟨["Branches"], 0⟩).controlCount = 1 ∧
    injectDeleteAllButton ⟨["Other"], 2⟩ = ⟨["Other"], 2⟩ :=
  claim4_injector_idempotent ⟨["Branches"], 0⟩ ⟨["Other"], 2⟩ 3 (by decide) rfl
    (by decide) (by decide)

/-- C5: the confirmation-button lookup tries the three candidate selectors
in declared order and returns the handle of the first that matches, `none`
when none matches; being a function of the query snapshot alone, it has no
side effects.  In particular, when selector 1 finds nothing and selector 2
succeeds, selector 2's handle is returned. -/
theorem claim5_confirm_lookup_priority (q : String → Option Nat) :
    findConfirmButton q =
      match q confirmSelector1 with
      | some b => some b
      | none =>
          match q confirmSelector2 with
          | some b => some b
          | none => q confirmSelector3 := by
  cases hq1 : q confirmSelector1 with
  | some b => simp [findConfirmButton, confirmButtonSelectors, findFirst, hq1]
  | none =>
      cases hq2 : q confirmSelector2 with
      | some b =>
          simp [findConfirmButton, confirmButtonSelectors, findFirst, hq1, hq2]
      | none =>
          cases hq3 : q confirmSelector3 with
          | some b =>
              simp [findConfirmButton, confirmButtonSelectors, findFirst, hq1,
                hq2, hq3]
          | none =>
              simp [findConfirmButton, confirmButtonSelectors, findFirst, hq1,
                hq2, hq3]

theorem claim3_row_failure_contained_witness :
    (runRows 200 3 0 ([rowOk] ++ rowThrows :: [rowOk])).1 =
      tallyAdd (runRows 200 3 0 [rowOk]).1
        (tallyAdd ⟨0, 1, 0⟩ (runRows 200 3 0 [rowOk]).1) ∧
    tallySum (runRows 200 3 0 ([rowOk] ++ rowThrows :: [rowOk])).1 =
      List.length [rowOk] + 1 + List.length [rowOk] :=
  claim3_row_failure_contained 200 3 0 [rowOk] [rowOk] rowThrows rfl rfl

/-- A query snapshot under which only the second confirmation selector
matches (handle 7). -/
def qSecondOnly : String → Option Nat :=
  fun s => if s = confirmSelector2 then some 7 else none

theorem claim5_confirm_lookup_priority_witness :
    findConfirmButton qSecondOnly =
      match qSecondOnly confirmSelector1 with
      | some b => some b
      | none =>
          match qSecondOnly confirmSelector2 with
          | some b => some b
          | none => qSecondOnly confirmSelector3 :=
  claim5_confirm_lookup_priority qSecondOnly

/-- C6 counterexample: the claim "exactly n-1 settle delays elapse
regardless of each row's outcome, so wall time is at least (n-1) x d" fails
on the code.  For the concrete job of n = 2 deletable rows whose first row
is detached (skipped), the run emits 0 settle delays, not n - 1 = 1, and its
total settle time is 0 < (n - 1) x 200: the code only sleeps after a
successful deletion. -/
theorem claim6_counterexample :
    ¬ (settleCount (handleDeleteAllClick [some rowDetached, some rowOk] true).2 =
          (([some rowDetached, some rowOk] : List (Option RowEnv)).filterMap
              id).length - 1 ∧
        ((([some rowDetached, some rowOk] : List (Option RowEnv)).filterMap
              id).length - 1) * 200 ≤
          settleTime (handleDeleteAllClick [some rowDetached, some rowOk] true).2) := by
  decide

/-- C6 (amended): a settle delay elapses exactly after each row that is
successfully deleted at an index other than the last; rows that are skipped
or errored incur no settle delay, and none follows the final row.  Hence the
number of settle delays equals the number of such rows and the total settle
time is that number times the configured delay. -/
theorem claim6_amended_settle_delays (branchRows : List (Option RowEnv))
    (h : (branchRows.filterMap id).length ≠ 0) :
    settleCount (handleDeleteAllClick branchRows true).2 =
      deletedNonLastCount (branchRows.filterMap id).length 0
        (branchRows.filterMap id) ∧
    settleTime (handleDeleteAllClick branchRows true).2 =
      deletedNonLastCount (branchRows.filterMap id).length 0
        (branchRows.filterMap id) * config.deleteDelay := by
  rw [handle_snd branchRows h]
  constructor
  · rw [settleCount_append, settleCount_cons_confirmPrompt, settleCount_runRows]
    simp [settleCount]
  · rw [settleTime_append, settleTime_cons_confirmPrompt, settleTime_runRows]
    simp [settleTime]

theorem claim6_amended_settle_delays_witness :
    settleCount (handleDeleteAllClick [some rowOk, some rowThrows, some rowOk]
        true).2 =
      deletedNonLastCount
        (([some rowOk, some rowThrows, some rowOk] : List (Option RowEnv)).filterMap
            id).length 0
        (([some rowOk, some rowThrows, some rowOk] : List (Option RowEnv)).filterMap
          id) ∧
    settleTime (handleDeleteAllClick [some rowOk, some rowThrows, some rowOk]
        true).2 =
      deletedNonLastCount
        (([some rowOk, some rowThrows, some rowOk] : List (Option RowEnv)).filterMap
            id).length 0
        (([some rowOk, some rowThrows, some rowOk] : List (Option RowEnv)).filterMap
          id) * config.deleteDelay :=
  claim6_amended_settle_delays [some rowOk, some rowThrows, some rowOk]
    (by decide)

/-- C7: with zero deletable rows the handler reports "no deletable branches"
and stops: the deletion loop is never entered, no confirmation prompt is
shown, no trigger is clicked and no reload happens, whatever the would-be
answer to the prompt. -/
theorem claim7_empty_job_short_circuit (branchRows : List (Option RowEnv))
    (uc : Bool) (n i : Nat) (h : branchRows.filterMap id = []) :
    handleDeleteAllClick branchRows uc = (⟨0, 0, 0⟩, [Event.alertNoBranches]) ∧
    Event.confirmPrompt n ∉ (handleDeleteAllClick branchRows uc).2 ∧
    Event.trigger i ∉ (handleDeleteAllClick branchRows uc).2 ∧
    Event.reload ∉ (handleDeleteAllClick branchRows uc).2 := by
  have hmain : handleDeleteAllClick branchRows uc =
      (⟨0, 0, 0⟩, [Event.alertNoBranches]) := by
    simp [handleDeleteAllClick, h]
  refine ⟨hmain, ?_, ?_, ?_⟩ <;> rw [hmain] <;> simp

theorem claim7_empty_job_short_circuit_witness :
    handleDeleteAllClick [none, none] true =
      (⟨0, 0, 0⟩, [Event.alertNoBranches]) ∧
    Event.confirmPrompt 0 ∉ (handleDeleteAllClick [none, none] true).2 ∧
    Event.trigger 0 ∉ (handleDeleteAllClick [none, none] true).2 ∧
    Event.reload ∉ (handleDeleteAllClick [none, none] true).2 :=
  claim7_empty_job_short_circuit [none, none] true 0 0 (by decide)

/-- Helper: dropping all but the last two elements of a list ending in a
two-element suffix yields that suffix. -/
theorem drop_sub_two_append_pair {α : Type} (l : List α) (a b : α) :
    (l ++ [a, b]).drop ((l ++ [a, b]).length - 2) = [a, b] := by
  have h1 : (l ++ [a, b]).length - 2 = l.length := by simp
  rw [h1, List.drop_left]

/-- A query snapshot of a dialog that exposes a close button (handle 5) but
no confirmation button. -/
def qCloseOnly : String → Option Nat :=
  fun s => if s = closeButtonSelector then some 5 else none

/-- C8: in the confirm-dialog flow, when after triggering a row no selector
of the confirmation matcher list finds a control, the row is counted as one
`errorCount` increment with `deletedCount` untouched, a close button is
clicked when the close matcher finds one (best-effort dismissal), and the
rows after it are still processed with their own outcomes. -/
theorem claim8_no_confirm_dismiss_and_fail (pre post : List RowEnvV1)
    (r : RowEnvV1) (h1 : r.attached = true) (h2 : r.clickThrows = false)
    (h3 : findConfirmButton r.q = none) :
    (runRowsV1 (pre ++ r :: post)).1 =
      tallyAdd (runRowsV1 pre).1 (tallyAdd ⟨0, 1, 0⟩ (runRowsV1 post).1) ∧
    (runRowsV1 (pre ++ r :: post)).2 =
      (runRowsV1 pre).2 ++
        ([EventV1.trigger, EventV1.dialogSleep 500] ++
          (match r.q closeButtonSelector with
            | some c => [EventV1.clickClose c]
            | none => [])) ++ (runRowsV1 post).2 := by
  have hstep : rowStepV1 r =
      (⟨0, 1, 0⟩,
        [EventV1.trigger, EventV1.dialogSleep 500] ++
          match r.q closeButtonSelector with
          | some c => [EventV1.clickClose c]
          | none => []) := by
    unfold rowStepV1
    simp [h1, h2, h3]
  have hcons : runRowsV1 (r :: post) =
      (tallyAdd (rowStepV1 r).1 (runRowsV1 post).1,
        (rowStepV1 r).2 ++ (runRowsV1 post).2) := rfl
  rw [runRowsV1_append, hcons, hstep]
  constructor
  · rfl
  · simp [List.append_assoc]

theorem claim8_no_confirm_dismiss_and_fail_witness :
    (runRowsV1 ([] ++ ⟨true, false, qCloseOnly⟩ :: [])).1 =
      tallyAdd (runRowsV1 []).1 (tallyAdd ⟨0, 1, 0⟩ (runRowsV1 []).1) ∧
    (runRowsV1 ([] ++ ⟨true, false, qCloseOnly⟩ :: [])).2 =
      (runRowsV1 []).2 ++
        ([EventV1.trigger, EventV1.dialogSleep 500] ++
          (match qCloseOnly closeButtonSelector with
            | some c => [EventV1.clickClose c]
            | none => [])) ++ (runRowsV1 []).2 :=
  claim8_no_confirm_dismiss_and_fail [] [] ⟨true, false, qCloseOnly⟩ rfl rfl
    (by decide)

/-- C9: whenever the deletion loop runs (a nonempty job, user confirmed),
the trace always ends with the blocking summary alert reporting the three
final counters, immediately followed by the page reload, whatever the rows'
individual outcomes. -/
theorem claim9_summary_then_reload (branchRows : List (Option RowEnv))
    (h : (branchRows.filterMap id).length ≠ 0) :
    (handleDeleteAllClick branchRows true).2.drop
        ((handleDeleteAllClick branchRows true).2.length - 2) =
      [Event.alertSummary (handleDeleteAllClick branchRows true).1.deletedCount
          (handleDeleteAllClick branchRows true).1.errorCount
          (handleDeleteAllClick branchRows true).1.skippedCount,
        Event.reload] := by
  rw [handle_snd branchRows h]
  exact drop_sub_two_append_pair _ _ _

theorem claim9_summary_then_reload_witness :
    (handleDeleteAllClick [some rowThrows, some rowDetached] true).2.drop
        ((handleDeleteAllClick [some rowThrows, some rowDetached] true).2.length - 2) =
      [Event.alertSummary
          (handleDeleteAllClick [some rowThrows, some rowDetached] true).1.deletedCount
          (handleDeleteAllClick [some rowThrows, some rowDetached] true).1.errorCount
          (handleDeleteAllClick [some rowThrows, some rowDetached] true).1.skippedCount,
        Event.reload] :=
  claim9_summary_then_reload [some rowThrows, some rowDetached] (by decide)

/-- C10: when the user declines the pre-run confirmation prompt, the handler
returns immediately: the counters stay at zero and the trace holds only the
prompt itself, so no trigger click, no summary alert and no reload reaches
the host document. -/
theorem claim10_decline_leaves_document (branchRows : List (Option RowEnv))
    (i dc ec sc : Nat) (h : (branchRows.filterMap id).length ≠ 0) :
    handleDeleteAllClick branchRows false =
      (⟨0, 0, 0⟩, [Event.confirmPrompt (branchRows.filterMap id).length]) ∧
    Event.trigger i ∉ (handleDeleteAllClick branchRows false).2 ∧
    Event.alertSummary dc ec sc ∉ (handleDeleteAllClick branchRows false).2 ∧
    Event.reload ∉ (handleDeleteAllClick branchRows false).2 := by
  have hmain : handleDeleteAllClick branchRows false =
      (⟨0, 0, 0⟩, [Event.confirmPrompt (branchRows.filterMap id).length]) := by
    simp [handleDeleteAllClick, h]
  refine ⟨hmain, ?_, ?_, ?_⟩ <;> rw [hmain] <;> simp

theorem claim10_decline_leaves_document_witness :
    handleDeleteAllClick [some rowOk] false =
      (⟨0, 0, 0⟩,
        [Event.confirmPrompt
          (([some rowOk] : List (Option RowEnv)).filterMap id).length]) ∧
    Event.trigger 0 ∉ (handleDeleteAllClick [some rowOk] false).2 ∧
    Event.alertSummary 1 0 0 ∉ (handleDeleteAllClick [some rowOk] false).2 ∧
    Event.reload ∉ (handleDeleteAllClick [some rowOk] false).2 :=
  claim10_decline_leaves_document [some rowOk] 0 1 0 0 (by decide)

end GBD
